import Mathlib

/-!
Verification of the Bytecoin NodeRpcProxy client
(src/src/node_rpc_proxy/NodeRpcProxy.cpp) against its specification.

The proxy is embedded shallowly: the transport is represented by the outcome
it can deliver to a call site (a thrown exception, or a response record), the
proxy object by an explicit state record, and each member function by a pure
function from the state and the transport outcome to the new state together
with the externally observable events (callback invocations, observer
notifications, RPC calls issued).
-/

namespace Bytecoin

/-- Error values of NodeErrors.h (the header is not in the corpus; the
taxonomy is fixed by spec section 7: AlreadyInitialized, NotInitialized,
NodeBusy, NetworkError, InternalNodeError). -/
inductive NodeError
  | alreadyInitialized
  | notInitialized
  | nodeBusy
  | networkError
  | internalNodeError
deriving DecidableEq, Repr

/-- A value of std::error_code as used by the proxy: none is the
default-constructed success code, some e a node error. -/
abbrev ErrorCode := Option NodeError

/-- Modelled from the spec: the status constant of
rpc/core_rpc_server_commands_defs.h (not in the corpus); spec section 6 fixes
the recognized status values to "OK" and "BUSY". -/
def CORE_RPC_STATUS_OK : String := "OK"

/-- Modelled from the spec: the busy status constant, see CORE_RPC_STATUS_OK. -/
def CORE_RPC_STATUS_BUSY : String := "BUSY"

/-- interpretResponseStatus (NodeRpcProxy.cpp lines 38-45). -/
def interpretResponseStatus (status : String) : ErrorCode :=
  if CORE_RPC_STATUS_BUSY = status then some NodeError.nodeBusy
  else if CORE_RPC_STATUS_OK ≠ status then some NodeError.internalNodeError
  else none

/-- The outcome a call to invokeBinaryCommand or invokeJsonCommand can have at
its call site: either a thrown std::exception, or a filled response record. -/
inductive TransportOutcome (R : Type)
  | thrown
  | response (res : R)
deriving DecidableEq, Repr

/-- binaryCommand (NodeRpcProxy.cpp lines 47-59): on a throw the error code is
NETWORK_ERROR, otherwise the response status is interpreted. The C++ template
is polymorphic in the response type, so the embedding takes the status
projection of the response record as an argument. -/
def binaryCommand {R : Type} (statusOf : R → String) :
    TransportOutcome R → ErrorCode
  | TransportOutcome.thrown => some NodeError.networkError
  | TransportOutcome.response res => interpretResponseStatus (statusOf res)

/-- jsonCommand (NodeRpcProxy.cpp lines 61-73): identical translation. -/
def jsonCommand {R : Type} (statusOf : R → String) :
    TransportOutcome R → ErrorCode
  | TransportOutcome.thrown => some NodeError.networkError
  | TransportOutcome.response res => interpretResponseStatus (statusOf res)

/-- The outcome of the HTTP exchange inside jsonRpcCommand
(NodeRpcProxy.cpp lines 75-106): the request (or the envelope parse) may throw
anywhere inside the try block, otherwise an HTTP response arrives with a
status code, and the typed result extraction from the JSON-RPC envelope
either yields a response record or fails. -/
inductive JsonRpcOutcome (R : Type)
  | thrown
  | httpResponse (httpStatus : Nat) (result : Option R)
deriving DecidableEq, Repr

/-- jsonRpcCommand (NodeRpcProxy.cpp lines 75-106): the error code starts as
INTERNAL_NODE_ERROR; only when the HTTP status is 200 and the envelope yields
a result is the embedded status interpreted; any throw gives NETWORK_ERROR. -/
def jsonRpcCommand {R : Type} (statusOf : R → String) :
    JsonRpcOutcome R → ErrorCode
  | JsonRpcOutcome.thrown => some NodeError.networkError
  | JsonRpcOutcome.httpResponse httpStatus result =>
      if httpStatus = 200 then
        match result with
        | some res => interpretResponseStatus (statusOf res)
        | none => some NodeError.internalNodeError
      else some NodeError.internalNodeError

/-- The error translation in the words of the spec (section 4.4), as a pure
function of whether a transport exception was thrown and, failing that, of the
response status string. Stated from the spec, to be compared with the
source-derived translation of the three call shapes. -/
def specErrorTranslation (threw : Bool) (status : String) : ErrorCode :=
  if threw then some NodeError.networkError
  else if status = "BUSY" then some NodeError.nodeBusy
  else if status ≠ "OK" then some NodeError.internalNodeError
  else none

theorem interpretResponseStatus_eq_spec (status : String) :
    interpretResponseStatus status = specErrorTranslation false status := by
  unfold interpretResponseStatus specErrorTranslation
  unfold CORE_RPC_STATUS_BUSY CORE_RPC_STATUS_OK
  by_cases hb : status = "BUSY"
  · subst hb; simp
  · by_cases ho : status = "OK"
    · subst ho; simp
    · simp [hb, ho, Ne.symm hb, Ne.symm ho]

/-- Claim C1: for every status string and every call outcome, the error
translation of the Command Dispatcher is the same pure function across the
binary, JSON, and JSON-RPC call shapes: a thrown transport exception maps to
NetworkError; otherwise the response status string "BUSY" maps to NodeBusy,
any status other than "OK" maps to InternalNodeError, and "OK" maps to no
error. -/
theorem error_translation_uniform_across_shapes {R : Type} (statusOf : R → String) :
    ((∀ status : String,
        specErrorTranslation true status = some NodeError.networkError)
      ∧ binaryCommand statusOf TransportOutcome.thrown = some NodeError.networkError
      ∧ jsonCommand statusOf TransportOutcome.thrown = some NodeError.networkError
      ∧ jsonRpcCommand statusOf JsonRpcOutcome.thrown = some NodeError.networkError)
    ∧ (∀ res : R,
        binaryCommand statusOf (TransportOutcome.response res)
            = specErrorTranslation false (statusOf res)
        ∧ jsonCommand statusOf (TransportOutcome.response res)
            = specErrorTranslation false (statusOf res)
        ∧ jsonRpcCommand statusOf (JsonRpcOutcome.httpResponse 200 (some res))
            = specErrorTranslation false (statusOf res))
    ∧ (specErrorTranslation false "BUSY" = some NodeError.nodeBusy
       ∧ specErrorTranslation false "OK" = none
       ∧ ∀ status : String, status ≠ "OK" → status ≠ "BUSY" →
           specErrorTranslation false status = some NodeError.internalNodeError) := by
  refine ⟨⟨fun status => rfl, rfl, rfl, rfl⟩, fun res => ?_, by decide, by decide, ?_⟩
  · refine ⟨interpretResponseStatus_eq_spec _, interpretResponseStatus_eq_spec _, ?_⟩
    show interpretResponseStatus (statusOf res) = _
    exact interpretResponseStatus_eq_spec _
  · intro status hok hbusy
    unfold specErrorTranslation
    simp [hbusy, hok]

/-- Witness for C1 at concrete inputs, discharging the hypotheses of its final
conjunct at the status string "FOO". -/
theorem error_translation_uniform_across_shapes_witness :
    specErrorTranslation false "FOO" = some NodeError.internalNodeError :=
  (error_translation_uniform_across_shapes (R := String) id).2.2.2.2 "FOO"
    (by decide) (by decide)

/-- Opaque payload atoms: spec sections 1 and 3 treat the RPC payload records
(hashes, transactions, block bodies) as opaque data the core only moves
around, so they are modelled as atoms. -/
abbrev Hash := Nat

/-- Opaque transaction payload, see Hash. -/
abbrev Transaction := Nat

/-- Opaque serialized block body, see Hash. -/
abbrev BlockBody := Nat

/-- Opaque serialized transaction blob inside a block entry, see Hash. -/
abbrev TxBlob := Nat

/-- The five lifecycle states of spec section 3. -/
inductive LifecycleState
  | notInitialized
  | initializing
  | initialized
  | shuttingDown
  | shutDown
deriving DecidableEq, Repr

/-- Modelled from the spec: the lifecycle helper class behind m_initState is
not in the corpus; its query m_initState.initialized() holds exactly in the
Initialized state (spec sections 3 and 4.1). -/
def LifecycleState.isInitialized : LifecycleState → Bool
  | LifecycleState.initialized => true
  | _ => false

/-- Modelled from the spec (section 4.1): m_initState.beginShutdown() succeeds
only when Initialized, moving to ShuttingDown, and fails otherwise leaving the
state unchanged. -/
def beginShutdown : LifecycleState → Bool × LifecycleState
  | LifecycleState.initialized => (true, LifecycleState.shuttingDown)
  | l => (false, l)

/-- Modelled from the spec (section 4.1): m_initState.endShutdown() moves
ShuttingDown to ShutDown. -/
def endShutdown : LifecycleState → LifecycleState
  | LifecycleState.shuttingDown => LifecycleState.shutDown
  | l => l

/-- A unit of work posted into m_ioService by a facade operation
(NodeRpcProxy.cpp lines 273, 282, 291, 300, 309), capturing the moved inputs;
the caller-supplied output references and callback are carried implicitly by
the corresponding executor functions below. -/
inductive PendingOperation
  | relayTransaction (transaction : Transaction)
  | getRandomOutsByAmounts (amounts : List Nat) (outsCount : Nat)
  | getNewBlocks (knownBlockIds : List Hash)
  | getTransactionOutsGlobalIndices (transactionHash : Hash)
  | queryBlocks (knownBlockIds : List Hash) (timestamp : Nat)
deriving DecidableEq, Repr

/-- The proxy object state: the lifecycle helper m_initState, the status
snapshot fields (NodeRpcProxy.cpp lines 125-131, 200-203, 226-228), the
flags set by shutdown (timer cancel and io-service stop, lines 149-150), and
the queue of operations posted into m_ioService. -/
structure ProxyState where
  lifecycle : LifecycleState
  peerCount : Nat
  nodeHeight : Nat
  networkHeight : Nat
  lastKnowHash : Hash
  lastLocalBlockTimestamp : Nat
  timerCancelled : Bool
  ioStopped : Bool
  queue : List PendingOperation
deriving DecidableEq, Repr

/-- Transport endpoints the proxy can invoke (spec section 6). -/
inductive RpcCall
  | getLastBlockHeader
  | getInfo
  | sendRawTransaction
  | getRandomOuts
  | getBlocksFast
  | getOIndexes
  | queryBlocksBin
deriving DecidableEq, Repr

/-- What a facade operation observably does: the resulting proxy state, the
error codes passed to the caller callback synchronously, and the transport
calls issued synchronously (the facade itself never touches the transport;
execution happens later on the background context via the do-functions). -/
structure OpResult where
  state : ProxyState
  callbacks : List ErrorCode
  calls : List RpcCall
deriving DecidableEq, Repr

/-- NodeRpcProxy::relayTransaction (NodeRpcProxy.cpp lines 266-274). -/
def relayTransaction (s : ProxyState) (transaction : Transaction) : OpResult :=
  if !s.lifecycle.isInitialized then
    { state := s, callbacks := [some NodeError.notInitialized], calls := [] }
  else
    { state := { s with
        queue := s.queue ++ [PendingOperation.relayTransaction transaction] },
      callbacks := [], calls := [] }

/-- NodeRpcProxy::getRandomOutsByAmounts (NodeRpcProxy.cpp lines 276-283). -/
def getRandomOutsByAmounts (s : ProxyState) (amounts : List Nat)
    (outsCount : Nat) : OpResult :=
  if !s.lifecycle.isInitialized then
    { state := s, callbacks := [some NodeError.notInitialized], calls := [] }
  else
    { state := { s with
        queue := s.queue ++ [PendingOperation.getRandomOutsByAmounts amounts outsCount] },
      callbacks := [], calls := [] }

/-- NodeRpcProxy::getNewBlocks (NodeRpcProxy.cpp lines 285-292). -/
def getNewBlocks (s : ProxyState) (knownBlockIds : List Hash) : OpResult :=
  if !s.lifecycle.isInitialized then
    { state := s, callbacks := [some NodeError.notInitialized], calls := [] }
  else
    { state := { s with
        queue := s.queue ++ [PendingOperation.getNewBlocks knownBlockIds] },
      callbacks := [], calls := [] }

/-- NodeRpcProxy::getTransactionOutsGlobalIndices (NodeRpcProxy.cpp lines
294-301). -/
def getTransactionOutsGlobalIndices (s : ProxyState)
    (transactionHash : Hash) : OpResult :=
  if !s.lifecycle.isInitialized then
    { state := s, callbacks := [some NodeError.notInitialized], calls := [] }
  else
    { state := { s with
        queue := s.queue ++ [PendingOperation.getTransactionOutsGlobalIndices transactionHash] },
      callbacks := [], calls := [] }

/-- NodeRpcProxy::queryBlocks (NodeRpcProxy.cpp lines 303-310). -/
def queryBlocks (s : ProxyState) (knownBlockIds : List Hash)
    (timestamp : Nat) : OpResult :=
  if !s.lifecycle.isInitialized then
    { state := s, callbacks := [some NodeError.notInitialized], calls := [] }
  else
    { state := { s with
        queue := s.queue ++ [PendingOperation.queryBlocks knownBlockIds timestamp] },
      callbacks := [], calls := [] }

/-- Observable result of getPoolSymmetricDifference: the proxy state, the
caller-supplied output storage after the call, the callback invocations and
the transport calls issued. -/
structure PoolSymDiffResult where
  state : ProxyState
  is_bc_actual : Bool
  new_txs : List Transaction
  deleted_tx_ids : List Hash
  callbacks : List ErrorCode
  calls : List RpcCall
deriving DecidableEq, Repr

/-- NodeRpcProxy::getPoolSymmetricDifference (NodeRpcProxy.cpp lines 388-391):
a stub with no lifecycle gate and no posting; it sets is_bc_actual to true,
leaves the other caller outputs untouched and invokes the callback with the
default (success) error code. -/
def getPoolSymmetricDifference (s : ProxyState) (known_pool_tx_ids : List Hash)
    (known_block_id : Hash) (is_bc_actual : Bool) (new_txs : List Transaction)
    (deleted_tx_ids : List Hash) : PoolSymDiffResult :=
  { state := s, is_bc_actual := true, new_txs := new_txs,
    deleted_tx_ids := deleted_tx_ids, callbacks := [none], calls := [] }

/-- A concrete proxy state used by counterexamples and witnesses: the freshly
constructed, not yet initialized proxy (constructor plus resetInternalState,
NodeRpcProxy.cpp lines 111-131). -/
def sampleProxyState : ProxyState :=
  { lifecycle := LifecycleState.notInitialized, peerCount := 0, nodeHeight := 0,
    networkHeight := 0, lastKnowHash := 0, lastLocalBlockTimestamp := 0,
    timerCancelled := false, ioStopped := false, queue := [] }

/-- The sample state after the background context completed initialization. -/
def sampleInitializedState : ProxyState :=
  { lifecycle := LifecycleState.initialized, peerCount := 0, nodeHeight := 0,
    networkHeight := 0, lastKnowHash := 0, lastLocalBlockTimestamp := 0,
    timerCancelled := false, ioStopped := false, queue := [] }

/-- Counterexample to claim C2 as stated: getPoolSymmetricDifference, called
on the never-initialized proxy state, invokes the callback with the success
code rather than with NotInitialized (NodeRpcProxy.cpp lines 388-391 perform
no lifecycle check). -/
theorem pool_sym_diff_not_gated_cex :
    sampleProxyState.lifecycle ≠ LifecycleState.initialized
    ∧ (getPoolSymmetricDifference sampleProxyState [] 0 false [] []).callbacks
        ≠ [some NodeError.notInitialized] := by
  decide

/-- Claim C2 (amended): calling relayTransaction, getRandomOutsByAmounts,
getNewBlocks, getTransactionOutsGlobalIndices or queryBlocks while the
lifecycle state is not Initialized invokes the callback with error
NotInitialized and performs no transport call and no enqueue; the stub
getPoolSymmetricDifference also performs no transport call and no enqueue,
but invokes the callback with the success code (and sets is_bc_actual),
regardless of the lifecycle state. -/
theorem async_ops_reject_when_not_initialized (s : ProxyState)
    (h : s.lifecycle ≠ LifecycleState.initialized)
    (tx : Transaction) (amounts : List Nat) (outsCount : Nat)
    (blockIds : List Hash) (txHash : Hash) (ids : List Hash) (timestamp : Nat)
    (poolIds : List Hash) (blockId : Hash) (bcActual : Bool)
    (newTxs : List Transaction) (deletedIds : List Hash) :
    relayTransaction s tx
        = { state := s, callbacks := [some NodeError.notInitialized], calls := [] }
    ∧ getRandomOutsByAmounts s amounts outsCount
        = { state := s, callbacks := [some NodeError.notInitialized], calls := [] }
    ∧ getNewBlocks s blockIds
        = { state := s, callbacks := [some NodeError.notInitialized], calls := [] }
    ∧ getTransactionOutsGlobalIndices s txHash
        = { state := s, callbacks := [some NodeError.notInitialized], calls := [] }
    ∧ queryBlocks s ids timestamp
        = { state := s, callbacks := [some NodeError.notInitialized], calls := [] }
    ∧ getPoolSymmetricDifference s poolIds blockId bcActual newTxs deletedIds
        = { state := s, is_bc_actual := true, new_txs := newTxs,
            deleted_tx_ids := deletedIds, callbacks := [none], calls := [] } := by
  have hb : s.lifecycle.isInitialized = false := by
    cases hl : s.lifecycle <;> first | rfl | exact absurd hl h
  refine ⟨?_, ?_, ?_, ?_, ?_, rfl⟩ <;>
    simp [relayTransaction, getRandomOutsByAmounts, getNewBlocks,
      getTransactionOutsGlobalIndices, queryBlocks, hb]

/-- Witness for C2 at a concrete input: the fresh proxy state rejects a
relayTransaction request with NotInitialized. -/
theorem async_ops_reject_when_not_initialized_witness :
    relayTransaction sampleProxyState 7
      = { state := sampleProxyState,
          callbacks := [some NodeError.notInitialized], calls := [] } :=
  (async_ops_reject_when_not_initialized sampleProxyState (by decide)
    7 [] 0 [] 0 [] 0 [] 0 false [] []).1

/-- NodeRpcProxy::shutdown (NodeRpcProxy.cpp lines 143-157): if
beginShutdown fails, return false; otherwise cancel the pull timer, stop the
io service, join the worker thread (which exists whenever the proxy reached
Initialized, so the join and endShutdown always run on this path) and return
true. -/
def shutdown (s : ProxyState) : Bool × ProxyState :=
  match beginShutdown s.lifecycle with
  | (false, _) => (false, s)
  | (true, l) =>
      (true, { s with lifecycle := endShutdown l,
                      timerCancelled := true, ioStopped := true })

/-- Claim C6: shutdown returns false whenever the lifecycle state is not
Initialized (in particular, a second consecutive shutdown returns false), and
returns true exactly once per successful Initialized-to-ShutDown cycle. -/
theorem shutdown_lifecycle_contract (s : ProxyState) :
    (s.lifecycle ≠ LifecycleState.initialized → shutdown s = (false, s))
    ∧ (s.lifecycle = LifecycleState.initialized →
        (shutdown s).1 = true
        ∧ (shutdown s).2.lifecycle = LifecycleState.shutDown
        ∧ shutdown (shutdown s).2 = (false, (shutdown s).2)) := by
  constructor
  · intro h
    cases hl : s.lifecycle <;>
      first
        | exact absurd hl h
        | simp [shutdown, beginShutdown, hl]
  · intro h
    simp [shutdown, beginShutdown, endShutdown, h]

/-- Witness for C6 at a concrete input: shutting down the initialized sample
state succeeds and a second shutdown fails. -/
theorem shutdown_lifecycle_contract_witness :
    (shutdown sampleInitializedState).1 = true
    ∧ (shutdown sampleInitializedState).2.lifecycle = LifecycleState.shutDown
    ∧ shutdown (shutdown sampleInitializedState).2
        = (false, (shutdown sampleInitializedState).2) :=
  (shutdown_lifecycle_contract sampleInitializedState).2 (by decide)

/-- NodeRpcProxy::getPeerCount (NodeRpcProxy.cpp lines 242-244). -/
def getPeerCount (s : ProxyState) : Nat := s.peerCount

/-- NodeRpcProxy::getLastLocalBlockHeight (NodeRpcProxy.cpp lines 246-248). -/
def getLastLocalBlockHeight (s : ProxyState) : Nat := s.nodeHeight

/-- NodeRpcProxy::getLastKnownBlockHeight (NodeRpcProxy.cpp lines 250-252). -/
def getLastKnownBlockHeight (s : ProxyState) : Nat := s.networkHeight

/-- NodeRpcProxy::getLocalBlockCount (NodeRpcProxy.cpp lines 254-256). -/
def getLocalBlockCount (s : ProxyState) : Nat := s.nodeHeight

/-- NodeRpcProxy::getKnownBlockCount (NodeRpcProxy.cpp lines 258-260). -/
def getKnownBlockCount (s : ProxyState) : Nat := s.networkHeight

/-- NodeRpcProxy::getLastLocalBlockTimestamp (NodeRpcProxy.cpp lines
262-264). -/
def getLastLocalBlockTimestamp (s : ProxyState) : Nat :=
  s.lastLocalBlockTimestamp

/-- Claim C10: in every proxy state, getLocalBlockCount returns the same value
as getLastLocalBlockHeight, and getKnownBlockCount returns the same value as
getLastKnownBlockHeight (each pair reads the same underlying snapshot
field). -/
theorem block_count_accessor_aliases (s : ProxyState) :
    getLocalBlockCount s = getLastLocalBlockHeight s
    ∧ getKnownBlockCount s = getLastKnownBlockHeight s :=
  ⟨rfl, rfl⟩

/-- Value of a hexadecimal digit character, none for any other character. -/
def hexDigitVal (c : Char) : Option Nat :=
  if ('0' ≤ c ∧ c ≤ '9') then some (c.toNat - '0'.toNat)
  else if ('a' ≤ c ∧ c ≤ 'f') then some (c.toNat - 'a'.toNat + 10)
  else if ('A' ≤ c ∧ c ≤ 'F') then some (c.toNat - 'A'.toNat + 10)
  else none

/-- Modelled from the spec: parse_hash256 of
cryptonote_core/cryptonote_basic_impl.h is not in the corpus; its call site
(NodeRpcProxy.cpp line 196) shows only that it turns the wire text of a
256-bit block hash into a hash value and can fail. It is modelled as
succeeding exactly on 64 hexadecimal digits, returning their value. -/
def parse_hash256 (s : String) : Option Hash :=
  if s.length = 64 then
    s.data.foldl
      (fun acc c =>
        match acc, hexDigitVal c with
        | some a, some d => some (16 * a + d)
        | _, _ => none)
      (some 0)
  else none

/-- The all-zero hash CryptoNote::null_hash, to which resetInternalState sets
m_lastKnowHash (NodeRpcProxy.cpp line 130). -/
def null_hash : Hash := 0

/-- The block_header record of the getlastblockheader response, with the hash
still in its wire (hexadecimal text) form. -/
structure BlockHeaderRecord where
  hash : String
  height : Nat
  timestamp : Nat
deriving DecidableEq, Repr

/-- COMMAND_RPC_GET_LAST_BLOCK_HEADER::response as read by updateNodeStatus. -/
structure GetLastBlockHeaderResponse where
  status : String
  block_header : BlockHeaderRecord
deriving DecidableEq, Repr

/-- COMMAND_RPC_GET_INFO::response as read by updatePeerCount. -/
structure GetInfoResponse where
  status : String
  incoming_connections_count : Nat
  outgoing_connections_count : Nat
deriving DecidableEq, Repr

/-- Observer notifications the poller can emit (INodeObserver callbacks used
at NodeRpcProxy.cpp lines 206, 211, 229). -/
inductive Notification
  | lastKnownBlockHeightUpdated (height : Nat)
  | localBlockchainUpdated (height : Nat)
  | peerCountUpdated (count : Nat)
deriving DecidableEq, Repr

/-- Whether a notification carries a block height (either of the two
height-related observer callbacks). -/
def Notification.isHeight : Notification → Bool
  | Notification.lastKnownBlockHeightUpdated _ => true
  | Notification.localBlockchainUpdated _ => true
  | Notification.peerCountUpdated _ => false

/-- NodeRpcProxy::updatePeerCount (NodeRpcProxy.cpp lines 218-232): issue the
getinfo JSON call; on success, if incoming plus outgoing connection count
differs from the cached m_peerCount, update it and notify observers. -/
def updatePeerCount (s : ProxyState)
    (info : TransportOutcome GetInfoResponse) : ProxyState × List Notification :=
  match info with
  | TransportOutcome.thrown => (s, [])
  | TransportOutcome.response rsp =>
      if jsonCommand GetInfoResponse.status (TransportOutcome.response rsp) = none then
        if rsp.incoming_connections_count + rsp.outgoing_connections_count
            ≠ s.peerCount then
          ({ s with peerCount :=
                rsp.incoming_connections_count + rsp.outgoing_connections_count },
           [Notification.peerCountUpdated
              (rsp.incoming_connections_count + rsp.outgoing_connections_count)])
        else (s, [])
      else (s, [])

/-- Observable result of one poller fire (updateNodeStatus together with the
updatePeerCount it falls through to): the resulting state, the observer
notifications in order, the transport calls issued, and the error codes
surfaced to caller callbacks (the poller never invokes a caller callback). -/
structure FireResult where
  state : ProxyState
  notifications : List Notification
  calls : List RpcCall
  callbackErrors : List ErrorCode
deriving DecidableEq, Repr

/-- The fall-through tail of updateNodeStatus (NodeRpcProxy.cpp line 215):
every path that does not return early runs updatePeerCount; the fire's events
are the height notifications followed by the peer notifications, with both
RPC calls issued and no caller callback invoked. -/
def updateNodeStatusTail (s1 : ProxyState) (heightNotifs : List Notification)
    (info : TransportOutcome GetInfoResponse) : FireResult :=
  { state := (updatePeerCount s1 info).1,
    notifications := heightNotifs ++ (updatePeerCount s1 info).2,
    calls := [RpcCall.getLastBlockHeader, RpcCall.getInfo],
    callbackErrors := [] }

/-- NodeRpcProxy::updateNodeStatus (NodeRpcProxy.cpp lines 188-216): issue the
getlastblockheader JSON-RPC call; on success parse the returned hash text,
returning early (skipping updatePeerCount) if it does not parse; if the hash
differs from m_lastKnowHash, update the snapshot fields and notify observers
of the new height twice (lastKnownBlockHeightUpdated with m_networkHeight,
localBlockchainUpdated with m_nodeHeight); finally fall through to
updatePeerCount. -/
def updateNodeStatus (s : ProxyState)
    (hdr : JsonRpcOutcome GetLastBlockHeaderResponse)
    (info : TransportOutcome GetInfoResponse) : FireResult :=
  match hdr with
  | JsonRpcOutcome.httpResponse httpStatus (some rsp) =>
      if jsonRpcCommand GetLastBlockHeaderResponse.status
           (JsonRpcOutcome.httpResponse httpStatus (some rsp)) = none then
        match parse_hash256 rsp.block_header.hash with
        | none =>
            { state := s, notifications := [],
              calls := [RpcCall.getLastBlockHeader], callbackErrors := [] }
        | some blockHash =>
            if blockHash ≠ s.lastKnowHash then
              updateNodeStatusTail
                { s with lastKnowHash := blockHash,
                         nodeHeight := rsp.block_header.height,
                         lastLocalBlockTimestamp := rsp.block_header.timestamp,
                         networkHeight := rsp.block_header.height }
                [Notification.lastKnownBlockHeightUpdated rsp.block_header.height,
                 Notification.localBlockchainUpdated rsp.block_header.height]
                info
            else updateNodeStatusTail s [] info
      else updateNodeStatusTail s [] info
  | JsonRpcOutcome.httpResponse _ none => updateNodeStatusTail s [] info
  | JsonRpcOutcome.thrown => updateNodeStatusTail s [] info

/-- Concrete header response used by the poller counterexamples: status OK and
a well-formed hash text of value 1, height 5, timestamp 9. -/
def sampleHeaderResponse : GetLastBlockHeaderResponse :=
  { status := "OK",
    block_header :=
      { hash := "0000000000000000000000000000000000000000000000000000000000000001",
        height := 5, timestamp := 9 } }

/-- Concrete header response whose status is OK but whose hash text is
malformed and does not parse. -/
def sampleBadHashResponse : GetLastBlockHeaderResponse :=
  { status := "OK", block_header := { hash := "zz", height := 5, timestamp := 9 } }

/-- Concrete getinfo response used by the poller counterexamples: status OK,
three incoming and two outgoing connections. -/
def sampleInfoResponse : GetInfoResponse :=
  { status := "OK", incoming_connections_count := 3,
    outgoing_connections_count := 2 }

/-- Counterexample to claim C3 as stated: on a fire whose header call succeeds
with a hash differing from the last known one, two height-carrying
notifications fire (lastKnownBlockHeightUpdated and localBlockchainUpdated,
NodeRpcProxy.cpp lines 206 and 211), not exactly one. -/
theorem height_notification_count_cex :
    jsonRpcCommand GetLastBlockHeaderResponse.status
        (JsonRpcOutcome.httpResponse 200 (some sampleHeaderResponse)) = none
    ∧ parse_hash256 sampleHeaderResponse.block_header.hash = some 1
    ∧ sampleInitializedState.lastKnowHash ≠ 1
    ∧ ((updateNodeStatus sampleInitializedState
          (JsonRpcOutcome.httpResponse 200 (some sampleHeaderResponse))
          TransportOutcome.thrown).notifications.filter
            Notification.isHeight).length = 2 := by
  decide

/-- Counterexample to claim C4 as stated: on a fire whose header call succeeds
but whose returned hash text fails to parse, updateNodeStatus returns early
(NodeRpcProxy.cpp line 197) and no getinfo call is issued. -/
theorem get_info_skipped_on_parse_failure_cex :
    jsonRpcCommand GetLastBlockHeaderResponse.status
        (JsonRpcOutcome.httpResponse 200 (some sampleBadHashResponse)) = none
    ∧ (updateNodeStatus sampleInitializedState
          (JsonRpcOutcome.httpResponse 200 (some sampleBadHashResponse))
          (TransportOutcome.response sampleInfoResponse)).calls
        = [RpcCall.getLastBlockHeader] := by
  decide

/-- Counterexample to claim C7 as stated: on a fire in which the header
dispatcher call returns an error (a thrown transport exception) but the
getinfo call succeeds with a changed peer count, the cached peer count is
modified and a peer-count notification is sent. -/
theorem poll_error_still_notifies_cex :
    jsonRpcCommand GetLastBlockHeaderResponse.status
        (JsonRpcOutcome.thrown (R := GetLastBlockHeaderResponse)) ≠ none
    ∧ (updateNodeStatus sampleInitializedState JsonRpcOutcome.thrown
          (TransportOutcome.response sampleInfoResponse)).state.peerCount = 5
    ∧ sampleInitializedState.peerCount = 0
    ∧ (updateNodeStatus sampleInitializedState JsonRpcOutcome.thrown
          (TransportOutcome.response sampleInfoResponse)).notifications
        = [Notification.peerCountUpdated 5] := by
  decide

theorem updatePeerCount_filter_height (s : ProxyState)
    (info : TransportOutcome GetInfoResponse) :
    (updatePeerCount s info).2.filter Notification.isHeight = [] := by
  cases info with
  | thrown => rfl
  | response rsp =>
    simp only [updatePeerCount]
    split
    · split
      · rfl
      · rfl
    · rfl

theorem updatePeerCount_filter_nonheight (s : ProxyState)
    (info : TransportOutcome GetInfoResponse) :
    (updatePeerCount s info).2.filter (fun n => !(Notification.isHeight n))
      = (updatePeerCount s info).2 := by
  cases info with
  | thrown => rfl
  | response rsp =>
    simp only [updatePeerCount]
    split
    · split
      · rfl
      · rfl
    · rfl

theorem updatePeerCount_snd_congr (s t : ProxyState)
    (info : TransportOutcome GetInfoResponse) (h : s.peerCount = t.peerCount) :
    (updatePeerCount s info).2 = (updatePeerCount t info).2 := by
  cases info with
  | thrown => rfl
  | response rsp =>
    simp only [updatePeerCount, h]
    split
    · split
      · rfl
      · rfl
    · rfl

theorem updatePeerCount_success (s : ProxyState) (irsp : GetInfoResponse)
    (hst : interpretResponseStatus irsp.status = none) :
    (irsp.incoming_connections_count + irsp.outgoing_connections_count
        ≠ s.peerCount →
      updatePeerCount s (TransportOutcome.response irsp)
        = ({ s with peerCount :=
              irsp.incoming_connections_count + irsp.outgoing_connections_count },
           [Notification.peerCountUpdated
              (irsp.incoming_connections_count + irsp.outgoing_connections_count)]))
    ∧ (irsp.incoming_connections_count + irsp.outgoing_connections_count
        = s.peerCount →
      updatePeerCount s (TransportOutcome.response irsp) = (s, [])) := by
  constructor <;> intro hpc <;> simp [updatePeerCount, jsonCommand, hst, hpc]

theorem updatePeerCount_error (s : ProxyState)
    (info : TransportOutcome GetInfoResponse)
    (he : jsonCommand GetInfoResponse.status info ≠ none) :
    updatePeerCount s info = (s, []) := by
  cases info with
  | thrown => rfl
  | response rsp => simp [updatePeerCount, he]

theorem updatePeerCount_fst_frame (s : ProxyState)
    (info : TransportOutcome GetInfoResponse) :
    (updatePeerCount s info).1.nodeHeight = s.nodeHeight
    ∧ (updatePeerCount s info).1.networkHeight = s.networkHeight
    ∧ (updatePeerCount s info).1.lastKnowHash = s.lastKnowHash
    ∧ (updatePeerCount s info).1.lastLocalBlockTimestamp
        = s.lastLocalBlockTimestamp := by
  cases info with
  | thrown => exact ⟨rfl, rfl, rfl, rfl⟩
  | response rsp =>
    simp only [updatePeerCount]
    split
    · split
      · exact ⟨rfl, rfl, rfl, rfl⟩
      · exact ⟨rfl, rfl, rfl, rfl⟩
    · exact ⟨rfl, rfl, rfl, rfl⟩

theorem updateNodeStatus_header_error (s : ProxyState)
    (hdr : JsonRpcOutcome GetLastBlockHeaderResponse)
    (info : TransportOutcome GetInfoResponse)
    (he : jsonRpcCommand GetLastBlockHeaderResponse.status hdr ≠ none) :
    updateNodeStatus s hdr info = updateNodeStatusTail s [] info := by
  cases hdr with
  | thrown => rfl
  | httpResponse code result =>
    cases result with
    | none => rfl
    | some rsp => simp [updateNodeStatus, he]

theorem updateNodeStatus_cases (s : ProxyState)
    (hdr : JsonRpcOutcome GetLastBlockHeaderResponse)
    (info : TransportOutcome GetInfoResponse) :
    (∃ httpStatus : Nat, ∃ rsp : GetLastBlockHeaderResponse,
        hdr = JsonRpcOutcome.httpResponse httpStatus (some rsp)
        ∧ jsonRpcCommand GetLastBlockHeaderResponse.status hdr = none
        ∧ parse_hash256 rsp.block_header.hash = none
        ∧ updateNodeStatus s hdr info
          = { state := s, notifications := [],
              calls := [RpcCall.getLastBlockHeader], callbackErrors := [] })
    ∨ updateNodeStatus s hdr info = updateNodeStatusTail s [] info
    ∨ (∃ rsp : GetLastBlockHeaderResponse, ∃ blockHash : Hash,
        parse_hash256 rsp.block_header.hash = some blockHash
        ∧ blockHash ≠ s.lastKnowHash
        ∧ updateNodeStatus s hdr info
          = updateNodeStatusTail
              { s with lastKnowHash := blockHash,
                       nodeHeight := rsp.block_header.height,
                       lastLocalBlockTimestamp := rsp.block_header.timestamp,
                       networkHeight := rsp.block_header.height }
              [Notification.lastKnownBlockHeightUpdated rsp.block_header.height,
               Notification.localBlockchainUpdated rsp.block_header.height]
              info) := by
  cases hdr with
  | thrown => exact Or.inr (Or.inl rfl)
  | httpResponse code result =>
    cases result with
    | none => exact Or.inr (Or.inl rfl)
    | some rsp =>
      by_cases hec : jsonRpcCommand GetLastBlockHeaderResponse.status
          (JsonRpcOutcome.httpResponse code (some rsp)) = none
      · cases hp : parse_hash256 rsp.block_header.hash with
        | none =>
          refine Or.inl ⟨code, rsp, rfl, hec, hp, ?_⟩
          simp [updateNodeStatus, hec, hp]
        | some bh =>
          by_cases hbh : bh = s.lastKnowHash
          · refine Or.inr (Or.inl ?_)
            simp [updateNodeStatus, hec, hp, hbh]
          · refine Or.inr (Or.inr ⟨rsp, bh, hp, hbh, ?_⟩)
            simp [updateNodeStatus, hec, hp, hbh]
      · exact Or.inr (Or.inl (by simp [updateNodeStatus, hec]))

/-- Claim C3 (amended): for every poller fire whose getlastblockheader call
succeeds and whose returned hash parses: if the parsed hash equals the last
known hash, no height-carrying notification is sent; if it differs, exactly
one lastKnownBlockHeightUpdated and exactly one localBlockchainUpdated
notification fire, in that order, each carrying the new height; and the
peer-count notification fires independently of the hash branch, determined
solely by whether the getinfo call succeeds with a total peer count differing
from the cached value. -/
theorem poller_height_and_peer_notifications (s : ProxyState)
    (httpStatus : Nat) (rsp : GetLastBlockHeaderResponse)
    (info : TransportOutcome GetInfoResponse) (blockHash : Hash)
    (hok : jsonRpcCommand GetLastBlockHeaderResponse.status
        (JsonRpcOutcome.httpResponse httpStatus (some rsp)) = none)
    (hparse : parse_hash256 rsp.block_header.hash = some blockHash) :
    (blockHash = s.lastKnowHash →
      ((updateNodeStatus s (JsonRpcOutcome.httpResponse httpStatus (some rsp))
          info).notifications.filter Notification.isHeight) = [])
    ∧ (blockHash ≠ s.lastKnowHash →
      ((updateNodeStatus s (JsonRpcOutcome.httpResponse httpStatus (some rsp))
          info).notifications.filter Notification.isHeight)
        = [Notification.lastKnownBlockHeightUpdated rsp.block_header.height,
           Notification.localBlockchainUpdated rsp.block_header.height])
    ∧ ((updateNodeStatus s (JsonRpcOutcome.httpResponse httpStatus (some rsp))
          info).notifications.filter (fun n => !(Notification.isHeight n)))
        = (updatePeerCount s info).2
    ∧ (∀ irsp : GetInfoResponse, info = TransportOutcome.response irsp →
        interpretResponseStatus irsp.status = none →
        (updatePeerCount s info).2
          = (if irsp.incoming_connections_count + irsp.outgoing_connections_count
                ≠ s.peerCount
             then [Notification.peerCountUpdated
                    (irsp.incoming_connections_count
                      + irsp.outgoing_connections_count)]
             else [])) := by
  refine ⟨?_, ?_, ?_, ?_⟩
  · intro heq
    simp [updateNodeStatus, updateNodeStatusTail, hok, hparse, heq,
      updatePeerCount_filter_height]
  · intro hne
    simp only [updateNodeStatus, hok, if_pos, hparse]
    rw [if_pos hne]
    simp only [updateNodeStatusTail, List.filter_append,
      updatePeerCount_filter_height]
    simp [Notification.isHeight]
  · by_cases hbh : blockHash = s.lastKnowHash
    · simp [updateNodeStatus, updateNodeStatusTail, hok, hparse, hbh,
        updatePeerCount_filter_nonheight]
    · simp only [updateNodeStatus, hok, if_pos, hparse]
      rw [if_pos hbh]
      simp only [updateNodeStatusTail, List.filter_append]
      rw [updatePeerCount_filter_nonheight,
        updatePeerCount_snd_congr
          { s with lastKnowHash := blockHash,
                   nodeHeight := rsp.block_header.height,
                   lastLocalBlockTimestamp := rsp.block_header.timestamp,
                   networkHeight := rsp.block_header.height }
          s info rfl]
      rfl
  · intro irsp hinfo hst
    subst hinfo
    by_cases hpc : irsp.incoming_connections_count
        + irsp.outgoing_connections_count ≠ s.peerCount
    · rw [if_pos hpc, ((updatePeerCount_success s irsp hst).1 hpc)]
    · rw [if_neg hpc,
        ((updatePeerCount_success s irsp hst).2 (not_not.mp hpc))]

/-- Witness for C3 at a concrete input: on the sample fire whose hash changes
from 0 to 1, the two height notifications carry the new height 5. -/
theorem poller_height_and_peer_notifications_witness :
    ((updateNodeStatus sampleInitializedState
        (JsonRpcOutcome.httpResponse 200 (some sampleHeaderResponse))
        TransportOutcome.thrown).notifications.filter Notification.isHeight)
      = [Notification.lastKnownBlockHeightUpdated 5,
         Notification.localBlockchainUpdated 5] :=
  (poller_height_and_peer_notifications sampleInitializedState 200
      sampleHeaderResponse TransportOutcome.thrown 1 (by decide)
      (by decide)).2.1 (by decide)

theorem updateNodeStatusTail_peer (s1 : ProxyState) (hn : List Notification)
    (irsp : GetInfoResponse) (hst : interpretResponseStatus irsp.status = none) :
    (irsp.incoming_connections_count + irsp.outgoing_connections_count
        ≠ s1.peerCount →
      (updateNodeStatusTail s1 hn (TransportOutcome.response irsp)).state.peerCount
        = irsp.incoming_connections_count + irsp.outgoing_connections_count
      ∧ Notification.peerCountUpdated
          (irsp.incoming_connections_count + irsp.outgoing_connections_count)
          ∈ (updateNodeStatusTail s1 hn (TransportOutcome.response irsp)).notifications)
    ∧ (irsp.incoming_connections_count + irsp.outgoing_connections_count
        = s1.peerCount →
      (updateNodeStatusTail s1 hn (TransportOutcome.response irsp)).state.peerCount
        = s1.peerCount) := by
  constructor
  · intro hpc
    have hu := (updatePeerCount_success s1 irsp hst).1 hpc
    constructor
    · show (updatePeerCount s1 (TransportOutcome.response irsp)).1.peerCount = _
      rw [hu]
    · show Notification.peerCountUpdated _
        ∈ hn ++ (updatePeerCount s1 (TransportOutcome.response irsp)).2
      rw [hu]
      simp
  · intro hpc
    have hu := (updatePeerCount_success s1 irsp hst).2 hpc
    show (updatePeerCount s1 (TransportOutcome.response irsp)).1.peerCount = _
    rw [hu]

/-- Claim C4 (amended): on every poller fire, except when the header call
succeeds but its returned hash text fails to parse (in which case
updateNodeStatus returns early, NodeRpcProxy.cpp line 197), a getinfo JSON
call is issued; whenever that call succeeds, if the total peer count
(incoming plus outgoing) differs from the cached value, the cached value is
updated and observers are notified of the new peer count, and otherwise the
cached value is unchanged. -/
theorem get_info_call_and_peer_update (s : ProxyState)
    (hdr : JsonRpcOutcome GetLastBlockHeaderResponse)
    (info : TransportOutcome GetInfoResponse)
    (h : ∀ httpStatus : Nat, ∀ rsp : GetLastBlockHeaderResponse,
        hdr = JsonRpcOutcome.httpResponse httpStatus (some rsp) →
        jsonRpcCommand GetLastBlockHeaderResponse.status hdr = none →
        parse_hash256 rsp.block_header.hash ≠ none) :
    RpcCall.getInfo ∈ (updateNodeStatus s hdr info).calls
    ∧ (∀ irsp : GetInfoResponse, info = TransportOutcome.response irsp →
        interpretResponseStatus irsp.status = none →
        ((irsp.incoming_connections_count + irsp.outgoing_connections_count
            ≠ s.peerCount →
          (updateNodeStatus s hdr info).state.peerCount
            = irsp.incoming_connections_count + irsp.outgoing_connections_count
          ∧ Notification.peerCountUpdated
              (irsp.incoming_connections_count + irsp.outgoing_connections_count)
              ∈ (updateNodeStatus s hdr info).notifications)
        ∧ (irsp.incoming_connections_count + irsp.outgoing_connections_count
            = s.peerCount →
          (updateNodeStatus s hdr info).state.peerCount = s.peerCount))) := by
  rcases updateNodeStatus_cases s hdr info with
    ⟨code, rsp, heq, hec, hp, _⟩ | htail | ⟨rsp, bh, hp, hbh, htail⟩
  · exact absurd hp (h code rsp heq hec)
  · rw [htail]
    refine ⟨by simp [updateNodeStatusTail], ?_⟩
    intro irsp hinfo hst
    subst hinfo
    exact updateNodeStatusTail_peer s [] irsp hst
  · rw [htail]
    refine ⟨by simp [updateNodeStatusTail], ?_⟩
    intro irsp hinfo hst
    subst hinfo
    exact updateNodeStatusTail_peer
      { s with lastKnowHash := bh,
               nodeHeight := rsp.block_header.height,
               lastLocalBlockTimestamp := rsp.block_header.timestamp,
               networkHeight := rsp.block_header.height }
      [Notification.lastKnownBlockHeightUpdated rsp.block_header.height,
       Notification.localBlockchainUpdated rsp.block_header.height]
      irsp hst

/-- Witness for C4 at a concrete input: on a fire whose header call throws,
the getinfo call is still issued. -/
theorem get_info_call_and_peer_update_witness :
    RpcCall.getInfo ∈ (updateNodeStatus sampleInitializedState
        (JsonRpcOutcome.thrown (R := GetLastBlockHeaderResponse))
        (TransportOutcome.response sampleInfoResponse)).calls :=
  (get_info_call_and_peer_update sampleInitializedState JsonRpcOutcome.thrown
      (TransportOutcome.response sampleInfoResponse)
      (fun httpStatus rsp heq _ => nomatch heq)).1

/-- Claim C7 (amended): poller errors are swallowed per call: if the header
call returns an error, the height, network-height, hash and timestamp
snapshot fields are unchanged and no height notification fires; if the
getinfo call returns an error, the cached peer count is unchanged and no
peer-count notification fires; if both calls return errors, the whole state
is unchanged and no notification fires; and in every case no error code is
surfaced to any caller. -/
theorem poll_errors_swallowed_per_call (s : ProxyState)
    (hdr : JsonRpcOutcome GetLastBlockHeaderResponse)
    (info : TransportOutcome GetInfoResponse) :
    (jsonRpcCommand GetLastBlockHeaderResponse.status hdr ≠ none →
      (updateNodeStatus s hdr info).state.nodeHeight = s.nodeHeight
      ∧ (updateNodeStatus s hdr info).state.networkHeight = s.networkHeight
      ∧ (updateNodeStatus s hdr info).state.lastKnowHash = s.lastKnowHash
      ∧ (updateNodeStatus s hdr info).state.lastLocalBlockTimestamp
          = s.lastLocalBlockTimestamp
      ∧ (updateNodeStatus s hdr info).notifications.filter
          Notification.isHeight = [])
    ∧ (jsonCommand GetInfoResponse.status info ≠ none →
      (updateNodeStatus s hdr info).state.peerCount = s.peerCount
      ∧ (updateNodeStatus s hdr info).notifications.filter
          (fun n => !(Notification.isHeight n)) = [])
    ∧ (jsonRpcCommand GetLastBlockHeaderResponse.status hdr ≠ none →
      jsonCommand GetInfoResponse.status info ≠ none →
      (updateNodeStatus s hdr info).state = s
      ∧ (updateNodeStatus s hdr info).notifications = [])
    ∧ (updateNodeStatus s hdr info).callbackErrors = [] := by
  refine ⟨?_, ?_, ?_, ?_⟩
  · intro he
    rw [updateNodeStatus_header_error s hdr info he]
    have hf := updatePeerCount_fst_frame s info
    refine ⟨hf.1, hf.2.1, hf.2.2.1, hf.2.2.2, ?_⟩
    show ([] ++ (updatePeerCount s info).2).filter Notification.isHeight = []
    rw [List.nil_append]
    exact updatePeerCount_filter_height s info
  · intro he
    rcases updateNodeStatus_cases s hdr info with
      ⟨_, _, _, _, _, hearly⟩ | htail | ⟨rsp, bh, hp, hbh, htail⟩
    · rw [hearly]
      exact ⟨rfl, rfl⟩
    · rw [htail]
      have hupe := updatePeerCount_error s info he
      constructor
      · show (updatePeerCount s info).1.peerCount = s.peerCount
        rw [hupe]
      · show (([] ++ (updatePeerCount s info).2).filter
            (fun n => !(Notification.isHeight n))) = []
        rw [hupe]
        rfl
    · rw [htail]
      have hupe := updatePeerCount_error
        { s with lastKnowHash := bh,
                 nodeHeight := rsp.block_header.height,
                 lastLocalBlockTimestamp := rsp.block_header.timestamp,
                 networkHeight := rsp.block_header.height } info he
      constructor
      · simp [updateNodeStatusTail, hupe]
      · simp [updateNodeStatusTail, hupe, Notification.isHeight]
  · intro he hinfo
    rw [updateNodeStatus_header_error s hdr info he]
    have hupe := updatePeerCount_error s info hinfo
    constructor
    · show (updatePeerCount s info).1 = s
      rw [hupe]
    · show ([] ++ (updatePeerCount s info).2) = []
      rw [hupe]
      rfl
  · rcases updateNodeStatus_cases s hdr info with
      ⟨_, _, _, _, _, hearly⟩ | htail | ⟨_, _, _, _, htail⟩
    · rw [hearly]
    · rw [htail]
      rfl
    · rw [htail]
      rfl

/-- Witness for C7 at a concrete input: a fire in which both calls throw
leaves the sample state unchanged and notifies nobody. -/
theorem poll_errors_swallowed_per_call_witness :
    (updateNodeStatus sampleInitializedState
        (JsonRpcOutcome.thrown (R := GetLastBlockHeaderResponse))
        (TransportOutcome.thrown (R := GetInfoResponse))).state
      = sampleInitializedState
    ∧ (updateNodeStatus sampleInitializedState
        (JsonRpcOutcome.thrown (R := GetLastBlockHeaderResponse))
        (TransportOutcome.thrown (R := GetInfoResponse))).notifications = [] :=
  (poll_errors_swallowed_per_call sampleInitializedState JsonRpcOutcome.thrown
      TransportOutcome.thrown).2.2.1 (by decide) (by decide)

/-- outs_for_amount record of the getrandom_outs.bin response: an amount and
its opaque output entries. -/
structure OutsForAmount where
  amount : Nat
  outs : List Nat
deriving DecidableEq, Repr

/-- COMMAND_RPC_GET_RANDOM_OUTPUTS_FOR_AMOUNTS::response as read by
doGetRandomOutsByAmounts. -/
structure RandomOutsResponse where
  status : String
  outs : List OutsForAmount
deriving DecidableEq, Repr

/-- Opaque CryptoNote::block_complete_entry of the getblocks.bin response. -/
abbrev block_complete_entry := Nat

/-- COMMAND_RPC_GET_BLOCKS_FAST::response as read by doGetNewBlocks. -/
structure GetBlocksFastResponse where
  status : String
  blocks : List block_complete_entry
  start_height : Nat
deriving DecidableEq, Repr

/-- COMMAND_RPC_GET_TX_GLOBAL_OUTPUTS_INDEXES::response as read by
doGetTransactionOutsGlobalIndices. -/
structure GetTxGlobalOutputsResponse where
  status : String
  o_indexes : List Nat
deriving DecidableEq, Repr

/-- One item of the queryblocks.bin response: block id, block body and the
transactions included in the block. -/
structure QueryBlocksItem where
  block_id : Hash
  block : BlockBody
  txs : List TxBlob
deriving DecidableEq, Repr

/-- COMMAND_RPC_QUERY_BLOCKS::response as read by doQueryBlocks. -/
structure QueryBlocksResponse where
  status : String
  items : List QueryBlocksItem
  start_height : Nat
deriving DecidableEq, Repr

/-- CryptoNote::BlockCompleteEntry, the proxy's own block-entry record filled
by doQueryBlocks. -/
structure BlockCompleteEntry where
  blockHash : Hash
  block : BlockBody
  txs : List TxBlob
deriving DecidableEq, Repr

/-- NodeRpcProxy::doGetRandomOutsByAmounts (NodeRpcProxy.cpp lines 320-332):
run the binary command; on success move the response outs into the caller's
storage; invoke the callback once with the error code. The request fields
(amounts, outsCount) do not influence the modelled outcome. -/
def doGetRandomOutsByAmounts (amounts : List Nat) (outsCount : Nat)
    (o : TransportOutcome RandomOutsResponse) (outs : List OutsForAmount) :
    List OutsForAmount × List ErrorCode :=
  match o with
  | TransportOutcome.thrown =>
      (outs, [binaryCommand RandomOutsResponse.status TransportOutcome.thrown])
  | TransportOutcome.response rsp =>
      if binaryCommand RandomOutsResponse.status
          (TransportOutcome.response rsp) = none then
        (rsp.outs,
         [binaryCommand RandomOutsResponse.status (TransportOutcome.response rsp)])
      else
        (outs,
         [binaryCommand RandomOutsResponse.status (TransportOutcome.response rsp)])

/-- NodeRpcProxy::doGetNewBlocks (NodeRpcProxy.cpp lines 334-347): run the
binary command; on success move the response blocks and start height into the
caller's storage; invoke the callback once with the error code. -/
def doGetNewBlocks (knownBlockIds : List Hash)
    (o : TransportOutcome GetBlocksFastResponse)
    (newBlocks : List block_complete_entry) (startHeight : Nat) :
    (List block_complete_entry × Nat) × List ErrorCode :=
  match o with
  | TransportOutcome.thrown =>
      ((newBlocks, startHeight),
       [binaryCommand GetBlocksFastResponse.status TransportOutcome.thrown])
  | TransportOutcome.response rsp =>
      if binaryCommand GetBlocksFastResponse.status
          (TransportOutcome.response rsp) = none then
        ((rsp.blocks, rsp.start_height),
         [binaryCommand GetBlocksFastResponse.status (TransportOutcome.response rsp)])
      else
        ((newBlocks, startHeight),
         [binaryCommand GetBlocksFastResponse.status (TransportOutcome.response rsp)])

/-- NodeRpcProxy::doGetTransactionOutsGlobalIndices (NodeRpcProxy.cpp lines
349-361): run the binary command; on success move the response indices into
the caller's storage; invoke the callback once with the error code. -/
def doGetTransactionOutsGlobalIndices (transactionHash : Hash)
    (o : TransportOutcome GetTxGlobalOutputsResponse)
    (outsGlobalIndices : List Nat) : List Nat × List ErrorCode :=
  match o with
  | TransportOutcome.thrown =>
      (outsGlobalIndices,
       [binaryCommand GetTxGlobalOutputsResponse.status TransportOutcome.thrown])
  | TransportOutcome.response rsp =>
      if binaryCommand GetTxGlobalOutputsResponse.status
          (TransportOutcome.response rsp) = none then
        (rsp.o_indexes,
         [binaryCommand GetTxGlobalOutputsResponse.status
            (TransportOutcome.response rsp)])
      else
        (outsGlobalIndices,
         [binaryCommand GetTxGlobalOutputsResponse.status
            (TransportOutcome.response rsp)])

/-- NodeRpcProxy::doQueryBlocks (NodeRpcProxy.cpp lines 363-386): run the
binary command; on success push one BlockCompleteEntry per response item onto
the caller's list (block id, block body and transactions carried over) and
set the start height; invoke the callback once with the error code. -/
def doQueryBlocks (knownBlockIds : List Hash) (timestamp : Nat)
    (o : TransportOutcome QueryBlocksResponse)
    (newBlocks : List BlockCompleteEntry) (startHeight : Nat) :
    List BlockCompleteEntry × Nat × List ErrorCode :=
  match o with
  | TransportOutcome.thrown =>
      (newBlocks, startHeight,
       [binaryCommand QueryBlocksResponse.status TransportOutcome.thrown])
  | TransportOutcome.response rsp =>
      if binaryCommand QueryBlocksResponse.status
          (TransportOutcome.response rsp) = none then
        (newBlocks ++ rsp.items.map (fun item =>
            { blockHash := item.block_id, block := item.block,
              txs := item.txs }),
         rsp.start_height,
         [binaryCommand QueryBlocksResponse.status (TransportOutcome.response rsp)])
      else
        (newBlocks, startHeight,
         [binaryCommand QueryBlocksResponse.status (TransportOutcome.response rsp)])

/-- Claim C5: for every successful queryBlocks daemon response containing N
items, the caller's output list receives exactly N new entries appended after
its previous contents, each entry carrying the corresponding item's block id,
block body and transaction list unchanged, the caller's startHeight output is
set to the response's start height, and the callback fires once with
success. -/
theorem queryBlocks_success_copies_items (knownBlockIds : List Hash)
    (timestamp : Nat) (rsp : QueryBlocksResponse)
    (newBlocks : List BlockCompleteEntry) (startHeight : Nat)
    (hok : binaryCommand QueryBlocksResponse.status
        (TransportOutcome.response rsp) = none) :
    (doQueryBlocks knownBlockIds timestamp (TransportOutcome.response rsp)
        newBlocks startHeight).1
      = newBlocks ++ rsp.items.map (fun item =>
          { blockHash := item.block_id, block := item.block,
            txs := item.txs })
    ∧ (doQueryBlocks knownBlockIds timestamp (TransportOutcome.response rsp)
        newBlocks startHeight).1.length
      = newBlocks.length + rsp.items.length
    ∧ (doQueryBlocks knownBlockIds timestamp (TransportOutcome.response rsp)
        newBlocks startHeight).2.1 = rsp.start_height
    ∧ (doQueryBlocks knownBlockIds timestamp (TransportOutcome.response rsp)
        newBlocks startHeight).2.2 = [none] := by
  refine ⟨?_, ?_, ?_, ?_⟩ <;> simp [doQueryBlocks, hok]

/-- Concrete queryblocks response used by the C5 witness: status OK and two
items. -/
def sampleQueryBlocksResponse : QueryBlocksResponse :=
  { status := "OK",
    items := [ { block_id := 11, block := 21, txs := [31, 32] },
               { block_id := 12, block := 22, txs := [] } ],
    start_height := 40 }

/-- Witness for C5 at a concrete input: the two items of the sample response
are carried over unchanged onto an empty caller list. -/
theorem queryBlocks_success_copies_items_witness :
    (doQueryBlocks [] 0
        (TransportOutcome.response sampleQueryBlocksResponse) [] 0).1
      = [ { blockHash := 11, block := 21, txs := [31, 32] },
          { blockHash := 12, block := 22, txs := [] } ] :=
  (queryBlocks_success_copies_items [] 0 sampleQueryBlocksResponse [] 0
    (by decide)).1

/-- Claim C9: for every executed asynchronous operation whose dispatcher call
returns a nonzero error code, the caller-supplied output storage (outs,
newBlocks, startHeight, outsGlobalIndices, queryBlocks entries) is left
completely unchanged, and the callback is still invoked exactly once with
that error code. -/
theorem failed_ops_leave_outputs_unchanged (e : NodeError)
    (amounts : List Nat) (outsCount : Nat) (knownBlockIds : List Hash)
    (transactionHash : Hash) (ids : List Hash) (timestamp : Nat)
    (outs : List OutsForAmount) (newBlocks : List block_complete_entry)
    (startHeight : Nat) (outsGlobalIndices : List Nat)
    (qBlocks : List BlockCompleteEntry) (qStartHeight : Nat)
    (ro : TransportOutcome RandomOutsResponse)
    (bo : TransportOutcome GetBlocksFastResponse)
    (go : TransportOutcome GetTxGlobalOutputsResponse)
    (qo : TransportOutcome QueryBlocksResponse) :
    (binaryCommand RandomOutsResponse.status ro = some e →
      doGetRandomOutsByAmounts amounts outsCount ro outs = (outs, [some e]))
    ∧ (binaryCommand GetBlocksFastResponse.status bo = some e →
      doGetNewBlocks knownBlockIds bo newBlocks startHeight
        = ((newBlocks, startHeight), [some e]))
    ∧ (binaryCommand GetTxGlobalOutputsResponse.status go = some e →
      doGetTransactionOutsGlobalIndices transactionHash go outsGlobalIndices
        = (outsGlobalIndices, [some e]))
    ∧ (binaryCommand QueryBlocksResponse.status qo = some e →
      doQueryBlocks ids timestamp qo qBlocks qStartHeight
        = (qBlocks, qStartHeight, [some e])) := by
  refine ⟨?_, ?_, ?_, ?_⟩
  · intro he
    cases ro <;> simp [doGetRandomOutsByAmounts, he] at he ⊢
  · intro he
    cases bo <;> simp [doGetNewBlocks, he] at he ⊢
  · intro he
    cases go <;> simp [doGetTransactionOutsGlobalIndices, he] at he ⊢
  · intro he
    cases qo <;> simp [doQueryBlocks, he] at he ⊢

/-- Witness for C9 at a concrete input: a thrown transport exception leaves
the caller's empty output list unchanged and the callback receives the
network error. -/
theorem failed_ops_leave_outputs_unchanged_witness :
    doGetRandomOutsByAmounts [] 0 TransportOutcome.thrown []
      = ([], [some NodeError.networkError]) :=
  (failed_ops_leave_outputs_unchanged NodeError.networkError
      [] 0 [] 0 [] 0 [] [] 0 [] [] 0
      TransportOutcome.thrown TransportOutcome.thrown TransportOutcome.thrown
      TransportOutcome.thrown).1 (by decide)

/-- State of the recurring pull timer: whether shutdown has issued
m_pullTimer.cancel (NodeRpcProxy.cpp line 149) and whether an async_wait
(line 181) is outstanding. -/
structure PollTimerState where
  cancelled : Bool
  pending : Bool
deriving DecidableEq, Repr

/-- Events of the poll/shutdown step relation: shutdown cancelling the timer,
and a pending wait completing either normally or with operation_aborted. -/
inductive PollTimerEvent
  | cancelTimer
  | completeSuccess
  | completeAborted
deriving DecidableEq, Repr

/-- One step of the poll/shutdown relation. A normal (non-aborted) completion
is only deliverable while the timer has not been cancelled: the timer
semantics deliver operation_aborted to a cancelled wait, and shutdown also
stops the io service (NodeRpcProxy.cpp line 150) before any stale success
handler could run. The wait handler (lines 181-185) fires the poll and
reschedules exactly when the completion code is not operation_aborted. The
returned Bool records whether the poller fired on this step; none means the
event is not enabled in this state. -/
def pollTimerStep (s : PollTimerState) :
    PollTimerEvent → Option (PollTimerState × Bool)
  | PollTimerEvent.cancelTimer =>
      some ({ s with cancelled := true }, false)
  | PollTimerEvent.completeSuccess =>
      if s.pending ∧ ¬s.cancelled then
        some ({ s with pending := true }, true)
      else none
  | PollTimerEvent.completeAborted =>
      if s.pending ∧ s.cancelled then
        some ({ s with pending := false }, false)
      else none

/-- Run a sequence of events from a timer state, skipping events that are not
enabled, and count how often the poller fires. -/
def pollTimerRun (s : PollTimerState) :
    List PollTimerEvent → PollTimerState × Nat
  | [] => (s, 0)
  | e :: es =>
      match pollTimerStep s e with
      | none => pollTimerRun s es
      | some (s1, fired) =>
          ((pollTimerRun s1 es).1,
           (if fired then 1 else 0) + (pollTimerRun s1 es).2)

theorem pollTimerRun_no_fire : ∀ (events : List PollTimerEvent)
    (s : PollTimerState), s.cancelled = true →
    (pollTimerRun s events).2 = 0 := by
  intro events
  induction events with
  | nil => intro s hc; rfl
  | cons e es ih =>
    intro s hc
    cases e with
    | cancelTimer => simp [pollTimerRun, pollTimerStep, ih]
    | completeSuccess => simp [pollTimerRun, pollTimerStep, hc, ih s hc]
    | completeAborted =>
      by_cases hp : s.pending = true
      · simp [pollTimerRun, pollTimerStep, hc, hp, ih]
      · simp [pollTimerRun, pollTimerStep, hc, hp, ih s hc]

/-- Claim C8: after shutdown cancels the recurring poll timer, a timer
completion that observes the operation_aborted condition never reschedules
the poll (it fires nothing and leaves no wait outstanding), and along every
event sequence from a cancelled state the poller never fires again. -/
theorem poller_never_fires_after_cancel (s : PollTimerState)
    (hc : s.cancelled = true) (events : List PollTimerEvent) :
    (∀ s1 : PollTimerState, ∀ fired : Bool,
        pollTimerStep s PollTimerEvent.completeAborted = some (s1, fired) →
        fired = false ∧ s1.pending = false)
    ∧ (pollTimerRun s events).2 = 0 := by
  constructor
  · intro s1 fired h
    simp only [pollTimerStep] at h
    split at h
    · simp only [Option.some_inj, Prod.mk.injEq] at h
      obtain ⟨h1, h2⟩ := h
      subst h1
      subst h2
      exact ⟨rfl, rfl⟩
    · exact absurd h (by simp)
  · exact pollTimerRun_no_fire events s hc

/-- Witness for C8 at a concrete input: from a cancelled state with a pending
wait, an aborted completion followed by a stray success event produces zero
fires. -/
theorem poller_never_fires_after_cancel_witness :
    (pollTimerRun { cancelled := true, pending := true }
        [PollTimerEvent.completeAborted, PollTimerEvent.completeSuccess]).2
      = 0 :=
  (poller_never_fires_after_cancel { cancelled := true, pending := true }
      (by decide)
      [PollTimerEvent.completeAborted, PollTimerEvent.completeSuccess]).2

end Bytecoin
